import Mathlib

/-!
Shallow embedding of the `NumPy_Revised` library (files `stabilze.py`,
`condint.py`, `maths_cleaned.py`, `arrays.py`).

Modelling conventions:
* Python runtime numbers (`int`, `float`, `Decimal`, `Fraction`, `bool`)
  become the inductive `PyVal`; the numeric payload of `float`, `Decimal`
  and `Fraction` is an exact rational `ℚ`.  The library sets a Decimal
  context precision (50 resp. 1000 significant digits); the embedding uses
  exact rational arithmetic, which agrees with the source on every
  computation the theorems below evaluate (all of them exactly
  representable), and abstracts the final-digit rounding otherwise.
* Python exceptions become the inductive `PyErr`; fallible code returns
  `Except PyErr _`.  Exception classes are distinguished the way Python
  distinguishes them: `dec_div` raises `ValueError` with its own message,
  native `%`/`/` raise `ZeroDivisionError`, the stabilizer raises
  `StabilizeError`.
* The `stabilize` decorator produces `def wrapper(*args)` — a wrapper that
  accepts positional arguments only.  A call that passes any keyword
  argument therefore fails with `TypeError` before the wrapped function
  runs; `stabilizeCallKw` models that call surface, `stabilizeCall` models
  a positional-only call with a fresh cache (the cache cannot affect a
  single first call, and errors are never cached by the source).
-/

namespace NumPyRevised

/-- Python error message raised by `dec_div` in `maths_cleaned.py`. -/
def divZeroMsg : String := "Cannot divide by zero. Please change."

/-- Fixed message of the `StabilizeError` raised by `stabilize.wrapper`. -/
def stabilizeMsg : String := "Cannot divide by zero. Please change the denominator."

/-- Message of the `ValueError` raised by `sqrt` on negative input. -/
def negSqrtMsg : String := "Cannot take square root of negative"

/-- Message of the `ValueError` raised by `BaseArray._elementwise`. -/
def lenMismatchMsg : String := "Array lengths must match"

/-- Message of the `ValueError` raised by `fact` on negative input. -/
def negFactMsg : String := "Factorial not defined for negatives"

/-- Message (abridged) of the `ValueError` Python raises when `int(c)` is
applied to a non-digit character such as the minus sign. -/
def invalidIntMsg : String := "invalid literal for int() with base 10"

/-- Python exception values, distinguished by class the way `except`
clauses distinguish them in the source. -/
inductive PyErr where
  | valueError (msg : String)
  | zeroDivisionError
  | stabilizeError (msg : String)
  | typeError
  | attributeError
  deriving DecidableEq

/-- Python runtime numeric values.  `pfloat`, `pdec`, `pfrac` carry the
exact rational the runtime value denotes. -/
inductive PyVal where
  | pint (n : ℤ)
  | pfloat (q : ℚ)
  | pdec (q : ℚ)
  | pfrac (q : ℚ)
  | pbool (b : Bool)
  deriving DecidableEq

/-- The rational a `PyVal` denotes (Python `bool` is an `int` subtype). -/
def PyVal.toQ : PyVal → ℚ
  | .pint n => n
  | .pfloat q => q
  | .pdec q => q
  | .pfrac q => q
  | .pbool b => if b then 1 else 0

/-- `isinstance(x, float)`. -/
def isFloat : PyVal → Bool
  | .pfloat _ => true
  | _ => false

/-- Python `int(x)`: identity on ints/bools, truncation toward zero on
`float`/`Decimal`/`Fraction` (`Int.tdiv` truncates toward zero). -/
def pyIntTrunc (x : PyVal) : ℤ :=
  match x with
  | .pint n => n
  | .pbool b => if b then 1 else 0
  | _ => x.toQ.num.tdiv x.toQ.den

/-- `_to_decimal` from `maths_cleaned.py`: convert
int | float | Decimal | Fraction → Decimal.  Total on `PyVal` because
`PyVal` only covers the convertible runtime types. -/
def to_decimal (x : PyVal) : PyVal := .pdec x.toQ

/-- `dec_div` from `maths_cleaned.py`: convert both operands to Decimal,
raise `ValueError` (not `ZeroDivisionError`) when the divisor is zero,
otherwise divide. -/
def dec_div (a b : PyVal) : Except PyErr PyVal :=
  let aq := (to_decimal a).toQ
  let bq := (to_decimal b).toQ
  if bq = 0 then .error (.valueError divZeroMsg)
  else .ok (.pdec (aq / bq))

/-- The `to_type` option of `condint` (`'int'` / `'float'` / `None`). -/
inductive PyType where
  | tint
  | tfloat
  deriving DecidableEq

/-- The "exact integer" test of `condint.py`: int (or bool, an int
subtype), float with no fractional part, Decimal equal to its integral
value, or Fraction with denominator 1. -/
def is_exact_int : PyVal → Bool
  | .pint _ => true
  | .pbool _ => true
  | .pfloat q => q.den == 1
  | .pdec q => q.den == 1
  | .pfrac q => q.den == 1

/-- `condint` from `condint.py`.  The branches appear in source order:
force-int, force-float, auto-conversion (floats only), otherwise return
`x` unchanged. -/
def condint (x : PyVal) (to_type : Option PyType) (cond : Option (PyVal → Bool)) : PyVal :=
  let c : PyVal → Bool := fun v => match cond with | none => true | some f => f v
  let exact := is_exact_int x
  if to_type == some PyType.tint && c x && exact then
    match x with
    | .pfrac q => .pint q.num
    | _ => .pint (pyIntTrunc x)
  else if to_type == some PyType.tfloat && c x then
    .pfloat x.toQ
  else if to_type == none && c x && exact && isFloat x then
    .pint (pyIntTrunc x)
  else x

/-- `condint_list` from `condint.py`: apply `condint` elementwise. -/
def condint_list (l : List PyVal) (to_type : Option PyType) (cond : Option (PyVal → Bool)) :
    List PyVal :=
  l.map (fun x => condint x to_type cond)

/-- One positional-only call of a `stabilize`-wrapped function with a
fresh cache: run the function, translate a `ZeroDivisionError` into
`StabilizeError stabilizeMsg`, pass every other outcome through.  (On a
first call the cache is empty, and the source caches only successful
results, after the `except` clause.) -/
def stabilizeCall {α β : Type} (f : α → Except PyErr β) (x : α) : Except PyErr β :=
  match f x with
  | .error .zeroDivisionError => .error (.stabilizeError stabilizeMsg)
  | r => r

/-- A call of a `stabilize`-wrapped function carrying the names of the
keyword arguments passed at the call site.  `def wrapper(*args)` declares
no keyword parameters, so any keyword argument raises `TypeError` before
the wrapped function runs. -/
def stabilizeCallKw {α β : Type} (f : α → Except PyErr β) (x : α)
    (kwargNames : List String) : Except PyErr β :=
  if kwargNames.isEmpty then stabilizeCall f x else .error .typeError

/-- Keyword-argument name `to_type`. -/
def toTypeKw : String := "to_type"

/-- Keyword-argument name `cond`. -/
def condKw : String := "cond"

/-- Body of `fact` from `maths_cleaned.py`: `n = int(n)`, error on
negative, iterative product over `range(1, n+1)`, result through
`condint`. -/
def factBody (x : PyVal) (to_type : Option PyType) (cond : Option (PyVal → Bool)) :
    Except PyErr PyVal :=
  let n := pyIntTrunc x
  if n < 0 then .error (.valueError negFactMsg)
  else
    let result := (List.range n.toNat).foldl (fun r i => r * ((i : ℤ) + 1)) 1
    .ok (condint (.pint result) to_type cond)

/-- The stabilized `fact`, called with positional arguments only. -/
def fact (x : PyVal) : Except PyErr PyVal :=
  stabilizeCall (fun v => factBody v none none) x

/-- The `while abs(term) > 1e-40` loop of `sin`, made structural with a
fuel parameter.  The source loop runs until the term-magnitude bound; the
claims below never evaluate this loop (every call into the stabilized
`sin` from `tan` fails with `TypeError` first), so the fuel never
matters. -/
def sinLoop : ℕ → ℚ → ℚ → ℚ → ℕ → ℚ
  | 0, _, _, result, _ => result
  | fuel + 1, x, term, result, n =>
    if |term| > 1 / 10 ^ 40 then
      let term1 := term * (-(x * x) / ((2 * n) * (2 * n + 1)))
      sinLoop fuel x term1 (result + term1) (n + 1)
    else result

/-- Body of `sin` from `maths_cleaned.py` (Taylor series around 0). -/
def sinBody (x : PyVal) (to_type : Option PyType) (cond : Option (PyVal → Bool)) :
    Except PyErr PyVal :=
  let xq := (to_decimal x).toQ
  .ok (condint (.pdec (sinLoop 100 xq xq xq 1)) to_type cond)

/-- The `while abs(term) > 1e-40` loop of `cos`, fueled the same way as
`sinLoop`. -/
def cosLoop : ℕ → ℚ → ℚ → ℚ → ℕ → ℚ
  | 0, _, _, result, _ => result
  | fuel + 1, x, term, result, n =>
    if |term| > 1 / 10 ^ 40 then
      let term1 := term * (-(x * x) / ((2 * n - 1) * (2 * n)))
      cosLoop fuel x term1 (result + term1) (n + 1)
    else result

/-- Body of `cos` from `maths_cleaned.py`. -/
def cosBody (x : PyVal) (to_type : Option PyType) (cond : Option (PyVal → Bool)) :
    Except PyErr PyVal :=
  let xq := (to_decimal x).toQ
  .ok (condint (.pdec (cosLoop 100 xq 1 1 1)) to_type cond)

/-- Body of `tan` from `maths_cleaned.py`:
`condint(dec_div(sin(x, to_type=..., cond=...), cos(x, ...)), ...)`.
The inner `sin`/`cos` are the stabilized wrappers, and the call site
passes `to_type` and `cond` as keyword arguments. -/
def tanBody (x : PyVal) (to_type : Option PyType) (cond : Option (PyVal → Bool)) :
    Except PyErr PyVal := do
  let s ← stabilizeCallKw (fun v => sinBody v to_type cond) x [toTypeKw, condKw]
  let c ← stabilizeCallKw (fun v => cosBody v to_type cond) x [toTypeKw, condKw]
  let q ← dec_div s c
  .ok (condint q to_type cond)

/-- The stabilized `tan`, called with positional arguments only. -/
def tan (x : PyVal) : Except PyErr PyVal :=
  stabilizeCall (fun v => tanBody v none none) x

/-- The `for _ in range(30)` Newton loop of `sqrt`:
`guess = (guess + dec_div(x, guess)) / 2`, with the division routed
through `dec_div`. -/
def newtonSqrt (x : ℚ) : ℕ → ℚ → Except PyErr ℚ
  | 0, g => .ok g
  | k + 1, g =>
    match dec_div (.pdec x) (.pdec g) with
    | .error e => .error e
    | .ok d => newtonSqrt x k ((g + d.toQ) / 2)

/-- Body of `sqrt` from `maths_cleaned.py`: error on negative input,
30 Newton iterations from initial guess `x / 2`, result through
`condint`. -/
def sqrtBody (x : PyVal) (to_type : Option PyType) (cond : Option (PyVal → Bool)) :
    Except PyErr PyVal :=
  let xq := (to_decimal x).toQ
  if xq < 0 then .error (.valueError negSqrtMsg)
  else
    match newtonSqrt xq 30 (xq / 2) with
    | .error e => .error e
    | .ok g => .ok (condint (.pdec g) to_type cond)

/-- The stabilized `sqrt`, called with positional arguments only. -/
def sqrt (x : PyVal) : Except PyErr PyVal :=
  stabilizeCall (fun v => sqrtBody v none none) x

/-- Body of `triangular` from `maths_cleaned.py`:
`condint(dec_div(n*(n+1), 2), ...)` after `n = _to_decimal(n)`. -/
def triangularBody (x : PyVal) (to_type : Option PyType) (cond : Option (PyVal → Bool)) :
    Except PyErr PyVal :=
  let nq := (to_decimal x).toQ
  match dec_div (.pdec (nq * (nq + 1))) (.pint 2) with
  | .error e => .error e
  | .ok q => .ok (condint q to_type cond)

/-- The stabilized `triangular`, called with positional arguments only. -/
def triangular (x : PyVal) : Except PyErr PyVal :=
  stabilizeCall (fun v => triangularBody v none none) x

/-- Body of `percentage` from `maths_cleaned.py`:
`condint(dec_div(_to_decimal(part)*100, total), ...)`. -/
def percentageBody (part total : PyVal) (to_type : Option PyType)
    (cond : Option (PyVal → Bool)) : Except PyErr PyVal :=
  match dec_div (.pdec ((to_decimal part).toQ * 100)) total with
  | .error e => .error e
  | .ok q => .ok (condint q to_type cond)

/-- The stabilized `percentage`, called with positional arguments only
(the cache key is the positional pair). -/
def percentage (part total : PyVal) : Except PyErr PyVal :=
  stabilizeCall (fun p : PyVal × PyVal => percentageBody p.1 p.2 none none) (part, total)

/-- Base-10 digits of a natural number, most significant first, with a
structural fuel parameter (`natToDigits` supplies enough fuel). -/
def natToDigitsAux : ℕ → ℕ → List ℕ
  | 0, _ => []
  | fuel + 1, m => if m < 10 then [m] else natToDigitsAux fuel (m / 10) ++ [m % 10]

/-- Base-10 digits of a natural number, most significant first
(`natToDigits 0 = [0]`, matching Python `str(0) = "0"`). -/
def natToDigits (m : ℕ) : List ℕ := natToDigitsAux (m + 1) m

/-- One character of Python `str(n)` for an integer `n`: either the minus
sign or a digit character (carried as its digit value). -/
inductive StrTok where
  | minus
  | digit (d : ℕ)
  deriving DecidableEq

/-- Python `str(n)` for an integer, as its list of characters. -/
def pyStr (n : ℤ) : List StrTok :=
  (if n < 0 then [StrTok.minus] else []) ++ (natToDigits n.natAbs).map StrTok.digit

/-- Python `int(c)` on one character of a decimal string: the digit
value, or `ValueError` on the minus sign. -/
def intOfTok : StrTok → Except PyErr ℤ
  | .minus => .error (.valueError invalidIntMsg)
  | .digit d => .ok d

/-- Python `sum(int(d) for d in str(n))`: left fold converting each
character, aborting with the first `ValueError`. -/
def digitSumStr (n : ℤ) : Except PyErr ℤ :=
  (pyStr n).foldlM (fun acc t => (intOfTok t).map (fun d => acc + d)) 0

/-- Python `a % b`: `ZeroDivisionError` when `b = 0`, otherwise the
remainder with the divisor's sign (`Int.emod` agrees with Python for the
positive divisors reached here). -/
def pyMod (a b : ℤ) : Except PyErr ℤ :=
  if b = 0 then .error .zeroDivisionError else .ok (a % b)

/-- Body of `is_harshad` from `maths_cleaned.py`:
`n = int(n); return n % sum(int(d) for d in str(n)) == 0`. -/
def is_harshadBody (x : PyVal) : Except PyErr PyVal := do
  let n := pyIntTrunc x
  let s ← digitSumStr n
  let m ← pyMod n s
  .ok (.pbool (m == 0))

/-- The stabilized `is_harshad`, called with positional arguments only. -/
def is_harshad (x : PyVal) : Except PyErr PyVal :=
  stabilizeCall is_harshadBody x

/-- An `Array1` value from `arrays.py`: the eagerly-Decimal-converted
data, the optional target presentation type, and the optional coercion
predicate. -/
structure Array1S where
  data : List PyVal
  to_type : Option PyType
  cond : Option (PyVal → Bool)

/-- `Array1.__init__`: convert every element to Decimal eagerly. -/
def Array1.init (l : List PyVal) (to_type : Option PyType)
    (cond : Option (PyVal → Bool)) : Array1S :=
  ⟨l.map to_decimal, to_type, cond⟩

/-- `Array1.to_list`: run every stored Decimal through `condint` with the
array's presentation options. -/
def Array1.to_list (a : Array1S) : List PyVal :=
  a.data.map (fun x => condint x a.to_type a.cond)

/-- The `other` operand of `BaseArray._elementwise`: either another array
(`isinstance(other, BaseArray)`) or a scalar. -/
inductive Operand where
  | arr (a : Array1S)
  | scalar (v : PyVal)

/-- The list comprehension `[op(a, b) for a, b in zip(...)]`: apply `op`
left to right, aborting with the first exception. -/
def mapPairs (op : PyVal → PyVal → Except PyErr PyVal) :
    List (PyVal × PyVal) → Except PyErr (List PyVal)
  | [] => .ok []
  | p :: t =>
    match op p.1 p.2 with
    | .error e => .error e
    | .ok v =>
      match mapPairs op t with
      | .error e => .error e
      | .ok vs => .ok (v :: vs)

/-- The list comprehension `[op(a, o) for a in self.data]` of the scalar
branch. -/
def mapScalar (op : PyVal → PyVal → Except PyErr PyVal) (o : PyVal) :
    List PyVal → Except PyErr (List PyVal)
  | [] => .ok []
  | a :: t =>
    match op a o with
    | .error e => .error e
    | .ok v =>
      match mapScalar op o t with
      | .error e => .error e
      | .ok vs => .ok (v :: vs)

/-- `BaseArray._elementwise`: length check then zipped application for an
array operand, scalar conversion then mapped application otherwise. -/
def elementwise (self : Array1S) (other : Operand)
    (op : PyVal → PyVal → Except PyErr PyVal) : Except PyErr (List PyVal) :=
  match other with
  | .arr o =>
    if self.data.length != o.data.length then .error (.valueError lenMismatchMsg)
    else mapPairs op (self.data.zip o.data)
  | .scalar v =>
    mapScalar op (to_decimal v) self.data

/-- Python `a + b` on two Decimal elements. -/
def opAdd (a b : PyVal) : Except PyErr PyVal := .ok (.pdec (a.toQ + b.toQ))

/-- Python `a - b` on two Decimal elements. -/
def opSub (a b : PyVal) : Except PyErr PyVal := .ok (.pdec (a.toQ - b.toQ))

/-- Python `a * b` on two Decimal elements. -/
def opMul (a b : PyVal) : Except PyErr PyVal := .ok (.pdec (a.toQ * b.toQ))

/-- Body of `BaseArray.add`: elementwise sums through `condint_list`. -/
def addBody (self : Array1S) (other : Operand) : Except PyErr (List PyVal) :=
  (elementwise self other opAdd).map (fun l => condint_list l self.to_type self.cond)

/-- Body of `BaseArray.sub`. -/
def subBody (self : Array1S) (other : Operand) : Except PyErr (List PyVal) :=
  (elementwise self other opSub).map (fun l => condint_list l self.to_type self.cond)

/-- Body of `BaseArray.mul`. -/
def mulBody (self : Array1S) (other : Operand) : Except PyErr (List PyVal) :=
  (elementwise self other opMul).map (fun l => condint_list l self.to_type self.cond)

/-- Body of `BaseArray.div`: elementwise `dec_div`. -/
def divBody (self : Array1S) (other : Operand) : Except PyErr (List PyVal) :=
  (elementwise self other dec_div).map (fun l => condint_list l self.to_type self.cond)

/-- The stabilized `add` method (cache key: the positional pair
`(self, other)`); it returns a plain Python list, not an array. -/
def Array1.add (self : Array1S) (other : Operand) : Except PyErr (List PyVal) :=
  stabilizeCall (fun p : Array1S × Operand => addBody p.1 p.2) (self, other)

/-- The stabilized `sub` method. -/
def Array1.sub (self : Array1S) (other : Operand) : Except PyErr (List PyVal) :=
  stabilizeCall (fun p : Array1S × Operand => subBody p.1 p.2) (self, other)

/-- The stabilized `mul` method. -/
def Array1.mul (self : Array1S) (other : Operand) : Except PyErr (List PyVal) :=
  stabilizeCall (fun p : Array1S × Operand => mulBody p.1 p.2) (self, other)

/-- The stabilized `div` method. -/
def Array1.div (self : Array1S) (other : Operand) : Except PyErr (List PyVal) :=
  stabilizeCall (fun p : Array1S × Operand => divBody p.1 p.2) (self, other)

/-- A Python object on which an attribute such as `to_list` may be looked
up: an `Array1` instance or a plain list (what `add` returns). -/
inductive PyObject where
  | arrObj (a : Array1S)
  | listObj (l : List PyVal)

/-- Attribute lookup + call `obj.to_list()`: succeeds on an `Array1`
instance, raises `AttributeError` on a plain list. -/
def callToList : PyObject → Except PyErr (List PyVal)
  | .arrObj a => .ok (Array1.to_list a)
  | .listObj _ => .error .attributeError

/-- The chained expression `x.add(y).to_list()` from the specification:
evaluate the stabilized `add` (which returns a plain list), then look up
`to_list` on the result. -/
def addChainToList (a : Array1S) (b : Operand) : Except PyErr (List PyVal) := do
  let l ← Array1.add a b
  callToList (.listObj l)

/-- Python `==` on two numeric values (cross-type value comparison). -/
def pyEq (a b : PyVal) : Bool := a.toQ == b.toQ

/-- Python `==` on two lists of numeric values. -/
def pyEqList (a b : List PyVal) : Bool :=
  a.length == b.length && (a.zip b).all (fun p => pyEq p.1 p.2)

/-- Whether a call outcome is the distinguished stabilization-violated
error. -/
def isStabilizeViolation {β : Type} : Except PyErr β → Bool
  | .error (.stabilizeError _) => true
  | _ => false

/-! ### Helper lemmas -/

theorem toQ_to_decimal (x : PyVal) : (to_decimal x).toQ = x.toQ := rfl

theorem stabilizeCall_ok {α β : Type} {f : α → Except PyErr β} {x : α} {r : β}
    (h : f x = .ok r) : stabilizeCall f x = .ok r := by
  unfold stabilizeCall
  rw [h]

theorem stabilizeCall_zerodiv {α β : Type} {f : α → Except PyErr β} {x : α}
    (h : f x = .error .zeroDivisionError) :
    stabilizeCall f x = .error (.stabilizeError stabilizeMsg) := by
  unfold stabilizeCall
  rw [h]

theorem stabilizeCall_error {α β : Type} {f : α → Except PyErr β} {x : α} {e : PyErr}
    (he : e ≠ .zeroDivisionError) (h : f x = .error e) :
    stabilizeCall f x = .error e := by
  unfold stabilizeCall
  rw [h]
  cases e with
  | zeroDivisionError => exact absurd rfl he
  | valueError m => rfl
  | stabilizeError m => rfl
  | typeError => rfl
  | attributeError => rfl

theorem condint_pdec_none (q : ℚ) (c : Option (PyVal → Bool)) :
    condint (.pdec q) none c = .pdec q := by
  simp [condint, isFloat]

theorem dec_div_zero (a b : PyVal) (h : b.toQ = 0) :
    dec_div a b = .error (.valueError divZeroMsg) := by
  simp [dec_div, toQ_to_decimal, h]

theorem dec_div_ok (a b : PyVal) (h : b.toQ ≠ 0) :
    dec_div a b = .ok (.pdec (a.toQ / b.toQ)) := by
  simp [dec_div, toQ_to_decimal, h]

theorem toQ_pint (n : ℤ) : (PyVal.pint n).toQ = (n : ℚ) := rfl

theorem toQ_pdec (q : ℚ) : (PyVal.pdec q).toQ = q := rfl

theorem toQ_pfloat (q : ℚ) : (PyVal.pfloat q).toQ = q := rfl

theorem toQ_pfrac (q : ℚ) : (PyVal.pfrac q).toQ = q := rfl

/-- In exact arithmetic the Newton loop of `sqrt` never reaches a zero
divisor from a positive guess when the radicand is positive: every
iterate stays positive. -/
theorem newtonSqrt_pos_ok (x : ℚ) (hx : 0 < x) :
    ∀ (k : ℕ) (g : ℚ), 0 < g → ∃ r : ℚ, newtonSqrt x k g = .ok r ∧ 0 < r := by
  intro k
  induction k with
  | zero => exact fun g hg => ⟨g, rfl, hg⟩
  | succ k ih =>
    intro g hg
    have hne : (PyVal.pdec g).toQ ≠ 0 := by simpa [toQ_pdec] using ne_of_gt hg
    have hstep : (0 : ℚ) < (g + x / g) / 2 := by positivity
    obtain ⟨r, hr, hrpos⟩ := ih ((g + x / g) / 2) hstep
    refine ⟨r, ?_, hrpos⟩
    rw [newtonSqrt, dec_div_ok _ _ hne]
    simpa [toQ_pdec] using hr

/-- The first Newton step of `sqrt` divides by the guess, so a zero guess
fails immediately with the `dec_div` error. -/
theorem newtonSqrt_zero_guess (x : ℚ) (k : ℕ) :
    newtonSqrt x (k + 1) 0 = .error (.valueError divZeroMsg) := by
  rw [newtonSqrt, dec_div_zero _ _ (by norm_num [toQ_pdec])]

theorem pyIntTrunc_pint (n : ℤ) : pyIntTrunc (.pint n) = n := rfl

theorem except_bind_ok {α β : Type} (a : α) (f : α → Except PyErr β) :
    (Except.ok a >>= f) = f a := rfl

theorem except_bind_error {α β : Type} (e : PyErr) (f : α → Except PyErr β) :
    ((Except.error e : Except PyErr α) >>= f) = .error e := rfl

/-- The decimal digits of a positive number have positive sum (the
leading digit is nonzero). -/
theorem natToDigitsAux_sum_pos :
    ∀ (fuel m : ℕ), 0 < m → m < fuel → 0 < (natToDigitsAux fuel m).sum := by
  intro fuel
  induction fuel with
  | zero => intro m hm hlt; omega
  | succ fuel ih =>
    intro m hm hlt
    rw [natToDigitsAux]
    by_cases h10 : m < 10
    · rw [if_pos h10]
      simpa using hm
    · rw [if_neg h10]
      rw [List.sum_append]
      have h1 : 0 < m / 10 := Nat.div_pos (by omega) (by omega)
      have h2 : m / 10 < fuel := by
        have := Nat.div_lt_self hm (by omega : 1 < 10)
        omega
      have h3 := ih (m / 10) h1 h2
      simp only [List.sum_cons, List.sum_nil]
      omega

/-- Folding digit-character conversion over an all-digit string never
fails and accumulates the digit sum. -/
theorem foldlM_digit_tokens (ds : List ℕ) :
    ∀ acc : ℤ, List.foldlM (fun acc t => (intOfTok t).map (fun d => acc + d)) acc
        (ds.map StrTok.digit) = .ok (acc + (ds.sum : ℤ)) := by
  induction ds with
  | nil =>
    intro acc
    show pure acc = Except.ok (acc + (([] : List ℕ).sum : ℤ))
    simp
    rfl
  | cons d t ih =>
    intro acc
    have step : List.foldlM (fun acc t => (intOfTok t).map (fun d => acc + d)) acc
        ((d :: t).map StrTok.digit)
        = List.foldlM (fun acc t => (intOfTok t).map (fun d => acc + d)) (acc + (d : ℤ))
          (t.map StrTok.digit) := rfl
    rw [step, ih]
    congr 1
    rw [List.sum_cons]
    push_cast
    ring

/-- `sum(int(d) for d in str(n))` on a positive integer returns its digit
sum. -/
theorem digitSumStr_pos (n : ℤ) (hn : 0 < n) :
    digitSumStr n = .ok ((natToDigits n.natAbs).sum : ℤ) := by
  rw [digitSumStr, pyStr, if_neg (by omega : ¬ n < 0)]
  simp only [List.nil_append]
  rw [foldlM_digit_tokens]
  norm_num

/-- `sum(int(d) for d in str(n))` on a negative integer fails on the
minus-sign character. -/
theorem digitSumStr_neg (n : ℤ) (hn : n < 0) :
    digitSumStr n = .error (.valueError invalidIntMsg) := by
  rw [digitSumStr, pyStr, if_pos hn]
  rfl

theorem pyMod_ok (a b : ℤ) (h : b ≠ 0) : pyMod a b = .ok (a % b) := by
  rw [pyMod, if_neg h]

theorem int_tdiv_one (a : ℤ) : a.tdiv 1 = a := by
  cases a with
  | ofNat m => simp [Int.tdiv]
  | negSucc m => simp [Int.tdiv, Int.negSucc_eq]

/-- `condint` with no targetType and default predicate coerces every
exact-integer float to its `int(x)` form, which is its numerator. -/
theorem condint_pfloat_exact (q : ℚ) (h : q.den = 1) :
    condint (.pfloat q) none none = .pint q.num := by
  simp [condint, is_exact_int, isFloat, h, pyIntTrunc, toQ_pfloat, int_tdiv_one]

/-- Each Newton step `(g + x/g)/2` is at least `g/2`, so after `k` steps
the iterate is still at least `g / 2^k`: 30 iterations cannot descend
from a huge initial guess to a square root many orders of magnitude
below it. -/
theorem newtonSqrt_ge_halving (x : ℚ) (hx : 0 < x) :
    ∀ (k : ℕ) (g : ℚ), 0 < g → ∀ r : ℚ, newtonSqrt x k g = .ok r → g / 2 ^ k ≤ r := by
  intro k
  induction k with
  | zero =>
    intro g hg r hr
    have : g = r := by
      have h2 : Except.ok (ε := PyErr) g = .ok r := hr
      exact Except.ok.inj h2
    simp [this]
  | succ k ih =>
    intro g hg r hr
    have hne : (PyVal.pdec g).toQ ≠ 0 := by simpa [toQ_pdec] using ne_of_gt hg
    rw [newtonSqrt, dec_div_ok _ _ hne] at hr
    have hr2 : newtonSqrt x k ((g + x / g) / 2) = .ok r := by
      simpa [toQ_pdec] using hr
    have hg2 : (0 : ℚ) < (g + x / g) / 2 := by positivity
    have hih := ih ((g + x / g) / 2) hg2 r hr2
    have hhalf : g / 2 ≤ (g + x / g) / 2 := by
      have : 0 < x / g := div_pos hx hg
      linarith
    calc g / 2 ^ (k + 1) = g / 2 / 2 ^ k := by rw [pow_succ]; ring
    _ ≤ (g + x / g) / 2 / 2 ^ k := by
        exact (div_le_div_iff_of_pos_right (by positivity)).mpr hhalf
    _ ≤ r := hih

/-- The success-and-accuracy predicate of the original C4 claim at one
input: the call succeeded and the square of the returned value is within
`tol` of `x`. -/
def resultSquareWithin (r : Except PyErr PyVal) (x tol : ℚ) : Prop :=
  match r with
  | .ok v => |v.toQ ^ 2 - x| ≤ tol
  | .error _ => False

/-! ### Claim theorems -/

/-- Claim C1 (amended): the Stabilizer wrapper translates only a native
`ZeroDivisionError` raised during the wrapped call into the distinguished
`StabilizeError` with its fixed message; every other failure — including
the `ValueError` that the safe-division choke point `dec_div` raises on a
zero divisor — propagates to the caller unchanged, and a successful result
passes through unchanged.  A zero divisor reaching `dec_div` always yields
that `ValueError`, which therefore surfaces identically inside and outside
wrapped calls. -/
theorem stabilize_translates_only_native_zerodiv :
    (∀ (f : PyVal → Except PyErr PyVal) (x : PyVal),
        (f x = .error .zeroDivisionError →
          stabilizeCall f x = .error (.stabilizeError stabilizeMsg))
      ∧ (∀ e : PyErr, e ≠ .zeroDivisionError → f x = .error e →
          stabilizeCall f x = .error e)
      ∧ (∀ r : PyVal, f x = .ok r → stabilizeCall f x = .ok r))
  ∧ (∀ a b : PyVal, b.toQ = 0 → dec_div a b = .error (.valueError divZeroMsg)) := by
  refine ⟨fun f x => ⟨fun h => stabilizeCall_zerodiv h,
    fun e he h => stabilizeCall_error he h,
    fun r h => stabilizeCall_ok h⟩, fun a b h => dec_div_zero a b h⟩

/-- Witness for C1: the stabilized `percentage` reaching `dec_div` with
divisor `0` surfaces the `ValueError` unchanged. -/
theorem stabilize_translates_only_native_zerodiv_witness :
    stabilizeCall (fun v => percentageBody v (.pint 0) none none) (.pint 1)
      = .error (.valueError divZeroMsg) :=
  (stabilize_translates_only_native_zerodiv.1
      (fun v => percentageBody v (.pint 0) none none) (.pint 1)).2.1
    (.valueError divZeroMsg) (by simp) rfl

/-- Counterexample for C1 as stated: the wrapped call
`percentage(1, 0)` reaches `dec_div` with a zero divisor, yet the failure
is the `ValueError` of `dec_div`, not the distinguished
stabilization-violated error the claim promises. -/
theorem dec_div_zero_in_wrapped_call_not_translated :
    percentage (.pint 1) (.pint 0) = .error (.valueError divZeroMsg)
  ∧ isStabilizeViolation (percentage (.pint 1) (.pint 0)) = false := by
  exact ⟨rfl, rfl⟩

/-- Claim C2 (code bug): `tan` never returns `sin(x)/cos(x)`.  Its body
passes `to_type`/`cond` as keyword arguments to the stabilized `sin`,
whose `wrapper(*args)` accepts positional arguments only, so every call of
`tan` raises `TypeError` before any division happens. -/
theorem tan_always_raises_typeerror (x : PyVal) : tan x = .error .typeError := rfl

/-- Claim C3 (code bug): a call of the stabilized `fact` that passes the
named option `to_type` raises `TypeError` (the wrapper accepts positional
arguments only), while the purely positional call `fact(5)` succeeds; the
claimed cache collision between keyword-differing calls is unreachable. -/
theorem fact_keyword_call_raises_typeerror :
    stabilizeCallKw (fun v => factBody v none none) (.pint 5) [toTypeKw]
      = .error .typeError
  ∧ stabilizeCallKw (fun v => factBody v none none) (.pint 5) []
      = .ok (.pint 120) := by
  exact ⟨rfl, rfl⟩

/-- Claim C5 (amended): with no targetType, `Array1` round-trips return
Decimal values, not native integers: construction converts every element
to Decimal eagerly, and `condint`'s auto-coercion applies only to floats,
which no stored element is any longer.  The results are value-equal
(Python `==`) to the original integer lists. -/
theorem array1_roundtrip_returns_decimals :
    Array1.to_list (Array1.init [.pint 1, .pint 2, .pint 3] none none)
      = [.pdec 1, .pdec 2, .pdec 3]
  ∧ Array1.to_list (Array1.init [.pfloat 1, .pfloat 2] none none)
      = [.pdec 1, .pdec 2]
  ∧ pyEqList (Array1.to_list (Array1.init [.pint 1, .pint 2, .pint 3] none none))
      [.pint 1, .pint 2, .pint 3] = true
  ∧ pyEqList (Array1.to_list (Array1.init [.pfloat 1, .pfloat 2] none none))
      [.pint 1, .pint 2] = true := by
  exact ⟨rfl, rfl, rfl, rfl⟩

/-- Counterexample for C5 as stated: neither round-trip returns native
integers — both `toList` results differ from the claimed integer lists
(they are Decimal-typed). -/
theorem array1_roundtrip_not_integers :
    (Array1.to_list (Array1.init [.pint 1, .pint 2, .pint 3] none none)
       == [PyVal.pint 1, .pint 2, .pint 3]) = false
  ∧ (Array1.to_list (Array1.init [.pfloat 1, .pfloat 2] none none)
       == [PyVal.pint 1, .pint 2]) = false := by
  exact ⟨rfl, rfl⟩

/-- Claim C6: with no targetType and the default predicate, `condint`
auto-coerces every float with no fractional part to its integer form,
while every Decimal — in particular one equal to its integral value — is
returned unchanged (only floats are auto-coerced); the spec's concrete
instances `condint(2.0) = 2` and `condint(Decimal("2.0"))` unchanged are
the stated special cases. -/
theorem condint_float_int_decimal_asymmetry :
    (∀ q : ℚ, q.den = 1 → condint (.pfloat q) none none = .pint q.num)
  ∧ (∀ q : ℚ, condint (.pdec q) none none = .pdec q)
  ∧ condint (.pfloat 2) none none = .pint 2
  ∧ condint (.pdec 2) none none = .pdec 2 :=
  ⟨condint_pfloat_exact, fun q => condint_pdec_none q none, by decide, by decide⟩

/-- Witness for C6: the universal parts applied at the concrete
exact-integer float `3.0` and Decimal `3`. -/
theorem condint_float_int_decimal_asymmetry_witness :
    condint (.pfloat 3) none none = .pint 3
  ∧ condint (.pdec 3) none none = .pdec 3 :=
  ⟨condint_float_int_decimal_asymmetry.1 3 (by decide),
   condint_float_int_decimal_asymmetry.2.1 3⟩

/-- Claim C7 (amended): adding two equal-length `Array1` values produces
the elementwise sums, but as a plain Python list of Decimal values (not an
`Array1`), value-equal (Python `==`) to `[5, 7, 9]`. -/
theorem array1_add_returns_plain_list_of_sums :
    Array1.add (Array1.init [.pint 1, .pint 2, .pint 3] none none)
        (.arr (Array1.init [.pint 4, .pint 5, .pint 6] none none))
      = .ok [.pdec 5, .pdec 7, .pdec 9]
  ∧ pyEqList [.pdec 5, .pdec 7, .pdec 9] [.pint 5, .pint 7, .pint 9] = true := by
  constructor
  · apply stabilizeCall_ok
    show addBody _ _ = _
    simp [addBody, elementwise, Array1.init, mapPairs, opAdd, to_decimal, PyVal.toQ,
      condint_list, condint_pdec_none, Except.map]
    norm_num [condint_pdec_none]
  · rfl

/-- Counterexample for C7 as stated: the chained expression
`Array1([1,2,3]).add(Array1([4,5,6])).toList()` does not evaluate to
`[5, 7, 9]` — `add` returns a plain list, which has no `to_list`
attribute, so the chain raises `AttributeError`. -/
theorem array1_add_chained_tolist_attribute_error :
    addChainToList (Array1.init [.pint 1, .pint 2, .pint 3] none none)
      (.arr (Array1.init [.pint 4, .pint 5, .pint 6] none none))
      = .error .attributeError := rfl

/-- Claim C8: every elementwise binary operation (`add`, `sub`, `mul`,
`div`) on two arrays of differing length fails with the length-mismatch
`ValueError` (the spec's ShapeMismatch), for all array contents — the
length check precedes every element operation. -/
theorem elementwise_length_mismatch_fails (a b : Array1S)
    (h : a.data.length ≠ b.data.length) :
    Array1.add a (.arr b) = .error (.valueError lenMismatchMsg)
  ∧ Array1.sub a (.arr b) = .error (.valueError lenMismatchMsg)
  ∧ Array1.mul a (.arr b) = .error (.valueError lenMismatchMsg)
  ∧ Array1.div a (.arr b) = .error (.valueError lenMismatchMsg) := by
  refine ⟨?_, ?_, ?_, ?_⟩
  · apply stabilizeCall_error (by simp)
    show addBody _ _ = _
    simp [addBody, elementwise, bne_iff_ne, h, Except.map]
  · apply stabilizeCall_error (by simp)
    show subBody _ _ = _
    simp [subBody, elementwise, bne_iff_ne, h, Except.map]
  · apply stabilizeCall_error (by simp)
    show mulBody _ _ = _
    simp [mulBody, elementwise, bne_iff_ne, h, Except.map]
  · apply stabilizeCall_error (by simp)
    show divBody _ _ = _
    simp [divBody, elementwise, bne_iff_ne, h, Except.map]

/-- Claim C9: the public `triangular` (absent from the spec's function
inventory) succeeds on every convertible numeric input, returning the
Type-Normalizer-processed value `n*(n+1)/2`; its internal `dec_div` has
the constant divisor `2` and can never hit the divide-by-zero branch. -/
theorem triangular_never_divides_by_zero (v : PyVal) :
    triangular v = .ok (.pdec (v.toQ * (v.toQ + 1) / 2)) := by
  apply stabilizeCall_ok
  show triangularBody _ _ _ = _
  rw [triangularBody, dec_div_ok _ _ (by norm_num [toQ_pint])]
  simp [toQ_to_decimal, toQ_pdec, toQ_pint, condint_pdec_none]

/-- Claim C4 (amended): `sqrt` raises the domain `ValueError` for
negative input, raises the `dec_div` divide-by-zero `ValueError` at input
`0` (the initial guess `0/2 = 0` is the first divisor), and succeeds for
every positive input, returning the value of the 30-iteration Newton loop
started at `x/2`. -/
theorem sqrt_domain_cases (x : PyVal) :
    (x.toQ < 0 → sqrt x = .error (.valueError negSqrtMsg))
  ∧ (x.toQ = 0 → sqrt x = .error (.valueError divZeroMsg))
  ∧ (0 < x.toQ → ∃ g : ℚ, newtonSqrt x.toQ 30 (x.toQ / 2) = .ok g
        ∧ sqrt x = .ok (.pdec g)) := by
  refine ⟨fun h => ?_, fun h => ?_, fun h => ?_⟩
  · apply stabilizeCall_error (by simp)
    show sqrtBody _ _ _ = _
    rw [sqrtBody]
    simp [toQ_to_decimal, h]
  · apply stabilizeCall_error (by simp)
    show sqrtBody _ _ _ = _
    rw [sqrtBody]
    simp only [toQ_to_decimal, h]
    rw [if_neg (lt_irrefl 0), zero_div]
    rw [show (30 : ℕ) = 29 + 1 from rfl, newtonSqrt_zero_guess]
  · obtain ⟨g, hg, hgpos⟩ := newtonSqrt_pos_ok x.toQ h 30 (x.toQ / 2) (by positivity)
    refine ⟨g, hg, ?_⟩
    apply stabilizeCall_ok
    show sqrtBody _ _ _ = _
    rw [sqrtBody]
    simp only [toQ_to_decimal]
    rw [if_neg (not_lt.mpr (le_of_lt h)), hg]
    show Except.ok (condint (PyVal.pdec g) none none) = _
    rw [condint_pdec_none]

/-- Witness for C4: `sqrt(-1)` fails with the square-root domain error. -/
theorem sqrt_domain_cases_witness :
    sqrt (.pint (-1)) = .error (.valueError negSqrtMsg) :=
  (sqrt_domain_cases (.pint (-1))).1 (by norm_num [toQ_pint])

/-- Counterexample for C4 as stated, at two explicit inputs.  At `x = 0`
the call does not succeed: the first Newton step divides by the initial
guess `0/2 = 0` and fails with the divide-by-zero `ValueError`.  At
`x = 10^60` the call succeeds but the claimed 1e-30 accuracy bound
fails: every Newton step at least halves the guess's lower bound, so the
returned value is at least `(10^60/2)/2^30`, whose square exceeds
`10^60` by far more than `1e-30`. -/
theorem sqrt_fails_at_zero_and_misses_tolerance :
    sqrt (.pint 0) = .error (.valueError divZeroMsg)
  ∧ (sqrt (.pint 0)).isOk = false
  ∧ ¬ resultSquareWithin (sqrt (.pdec (10 ^ 60))) (10 ^ 60) (1 / 10 ^ 30) := by
  have h : sqrt (.pint 0) = .error (.valueError divZeroMsg) := by
    apply stabilizeCall_error (by simp)
    show sqrtBody _ _ _ = _
    rw [sqrtBody]
    simp only [toQ_to_decimal, toQ_pint, Int.cast_zero]
    rw [if_neg (lt_irrefl 0), zero_div]
    rw [show (30 : ℕ) = 29 + 1 from rfl, newtonSqrt_zero_guess]
  refine ⟨h, by rw [h]; rfl, ?_⟩
  have hx : (0 : ℚ) < 10 ^ 60 := by positivity
  obtain ⟨g, hg, hgpos⟩ := newtonSqrt_pos_ok ((10 : ℚ) ^ 60) hx 30 ((10 : ℚ) ^ 60 / 2)
    (by positivity)
  have hlow := newtonSqrt_ge_halving ((10 : ℚ) ^ 60) hx 30 ((10 : ℚ) ^ 60 / 2)
    (by positivity) g hg
  have hsqrt : sqrt (.pdec (10 ^ 60)) = .ok (.pdec g) := by
    apply stabilizeCall_ok
    show sqrtBody _ _ _ = _
    rw [sqrtBody]
    simp only [toQ_to_decimal, toQ_pdec]
    rw [if_neg (not_lt.mpr (le_of_lt hx)), hg]
    show Except.ok (condint (PyVal.pdec g) none none) = _
    rw [condint_pdec_none]
  rw [hsqrt]
  show ¬ |(PyVal.pdec g).toQ ^ 2 - 10 ^ 60| ≤ 1 / 10 ^ 30
  rw [toQ_pdec]
  intro habs
  have hglow : (10 : ℚ) ^ 60 / 2 / 2 ^ 30 ≤ g := hlow
  have hsq : ((10 : ℚ) ^ 60 / 2 / 2 ^ 30) ^ 2 ≤ g ^ 2 :=
    pow_le_pow_left₀ (by positivity) hglow 2
  have hbig : ((10 : ℚ) ^ 60 / 2 / 2 ^ 30) ^ 2 - 10 ^ 60 > 1 / 10 ^ 30 := by norm_num
  have hge : g ^ 2 - 10 ^ 60 ≤ |g ^ 2 - 10 ^ 60| := le_abs_self _
  have hfin : g ^ 2 - 10 ^ 60 ≤ 1 / 10 ^ 30 := hge.trans habs
  nlinarith [hfin, hbig, hsq]

/-- Claim C10 (amended): `is_harshad(0)` has digit sum `0`, the native
modulo by zero raises `ZeroDivisionError` inside the wrapper, and the
call surfaces the distinguished `StabilizeError`; every positive integer
returns a boolean (`n` divisible by its digit sum); every negative
integer fails with `ValueError`, because `str(n)` starts with the minus
sign and `int('-')` is not a digit conversion. -/
theorem is_harshad_zero_and_sign_behavior :
    is_harshad (.pint 0) = .error (.stabilizeError stabilizeMsg)
  ∧ (∀ n : ℤ, 0 < n →
      is_harshad (.pint n) = .ok (.pbool (n % ((natToDigits n.natAbs).sum : ℤ) == 0)))
  ∧ (∀ n : ℤ, n < 0 → is_harshad (.pint n) = .error (.valueError invalidIntMsg)) := by
  refine ⟨rfl, fun n hn => ?_, fun n hn => ?_⟩
  · have h0 : 0 < n.natAbs := by omega
    have hpos := natToDigitsAux_sum_pos (n.natAbs + 1) n.natAbs h0 (Nat.lt_succ_self _)
    have hsum : ((natToDigits n.natAbs).sum : ℤ) ≠ 0 := by
      rw [natToDigits]
      exact_mod_cast hpos.ne'
    apply stabilizeCall_ok
    show is_harshadBody _ = _
    rw [is_harshadBody]
    rw [pyIntTrunc_pint, digitSumStr_pos n hn, except_bind_ok, pyMod_ok _ _ hsum,
      except_bind_ok]
  · apply stabilizeCall_error (by simp)
    show is_harshadBody _ = _
    rw [is_harshadBody]
    rw [pyIntTrunc_pint, digitSumStr_neg n hn, except_bind_error]

/-- Witness for C10: `is_harshad(12)` returns a boolean (`12` is a
Harshad number: digit sum `3` divides `12`). -/
theorem is_harshad_zero_and_sign_behavior_witness :
    is_harshad (.pint 12) = .ok (.pbool true) :=
  is_harshad_zero_and_sign_behavior.2.1 12 (by norm_num)

/-- Counterexample for C10 as stated: the nonzero integer `-12` does not
get a boolean — `is_harshad(-12)` raises `ValueError` converting the
minus-sign character. -/
theorem is_harshad_negative_raises_valueerror :
    is_harshad (.pint (-12)) = .error (.valueError invalidIntMsg)
  ∧ (is_harshad (.pint (-12))).isOk = false := ⟨rfl, rfl⟩

/-- Witness for C8 at the spec's concrete instance:
`Array1([1,2,3]).add(Array1([1,2]))` (and the other three operations)
fails with the length-mismatch error. -/
theorem elementwise_length_mismatch_fails_witness :
    Array1.add (Array1.init [.pint 1, .pint 2, .pint 3] none none)
        (.arr (Array1.init [.pint 1, .pint 2] none none))
      = .error (.valueError lenMismatchMsg)
  ∧ Array1.sub (Array1.init [.pint 1, .pint 2, .pint 3] none none)
        (.arr (Array1.init [.pint 1, .pint 2] none none))
      = .error (.valueError lenMismatchMsg)
  ∧ Array1.mul (Array1.init [.pint 1, .pint 2, .pint 3] none none)
        (.arr (Array1.init [.pint 1, .pint 2] none none))
      = .error (.valueError lenMismatchMsg)
  ∧ Array1.div (Array1.init [.pint 1, .pint 2, .pint 3] none none)
        (.arr (Array1.init [.pint 1, .pint 2] none none))
      = .error (.valueError lenMismatchMsg) :=
  elementwise_length_mismatch_fails
    (Array1.init [.pint 1, .pint 2, .pint 3] none none)
    (Array1.init [.pint 1, .pint 2] none none) (by simp [Array1.init])

end NumPyRevised
